import Mathlib

/-!
# Verification of the build-config aggregator (`src/script.py`)

Shallow embedding of the Python script `src/script.py`.  The script reads a
CMake configuration file, extracts candidate source paths with `re.findall`,
discovers header files beneath a fixed `include` directory with `os.walk`,
and concatenates everything into one output document.

Strings are modelled as Lean `String` (with the scanners working over
`List Char`, the `.data` of a string).  The filesystem, which the script
queries through `os.path.exists`, `open(...).read()`, `os.walk` and
`os.path.abspath`, is modelled as a structure of abstract observation
functions (`FS`).  A Python exception raised by a read is an `Except.error`
carrying the message `str(e)`.

Each `re.findall` call in the script uses one fixed pattern; for each such
pattern we implement the exact matching semantics of that pattern
(leftmost scan, greedy quantifiers with backtracking, lazy group up to the
first closing parenthesis, non-overlapping continuation after each match)
as an executable function.
-/

/-- Python `\w` (ASCII range): letters, digits and underscore.
The script's inputs are ASCII CMake text, where `str.isalnum`-style unicode
word characters and this predicate coincide. -/
def isWordChar (c : Char) : Bool := c.isAlphanum || c == '_'

/-- Python `\s`: the six whitespace characters recognised by `re`
(space, tab, newline, carriage return, vertical tab, form feed). -/
def isPySpace (c : Char) : Bool :=
  c == ' ' || c == '\t' || c == '\n' || c == '\r' || c == '\x0b' || c == '\x0c'

/-- The character class `[\w/]` used inside the `src/...cpp` patterns. -/
def srcPathChar (c : Char) : Bool := isWordChar c || c == '/'

/-- Match a literal character sequence at the head of the input, returning
the remainder on success (the regex-literal parts of the patterns). -/
def dropLit : List Char → List Char → Option (List Char)
  | [], s => some s
  | _ :: _, [] => none
  | l :: ls, c :: cs => if c == l then dropLit ls cs else none

/-- Lazy `(.*?)\)` with `re.DOTALL`: capture everything up to the FIRST
closing parenthesis; `none` when no closing parenthesis exists (the regex
match fails there). -/
def splitAtCloseParen : List Char → Option (List Char × List Char)
  | [] => none
  | c :: cs =>
    if c == ')' then some ([], cs)
    else
      match splitAtCloseParen cs with
      | some (g, r) => some (c :: g, r)
      | none => none

/-- The literal `_SOURCES` that follows `\w+` in the pattern
`set\(\w+_SOURCES(.*?)\)`. -/
def sourcesTag : List Char := "_SOURCES".data

/-- Try to split the maximal word-character run `run` as
`run = run.take k ++ "_SOURCES" ++ rest` at a given `k ≥ 1` (the `\w+` part
must consume at least one character). -/
def tagSplitAt (run : List Char) (k : Nat) : Option (List Char × List Char) :=
  if k ≠ 0 ∧ sourcesTag.isPrefixOf (run.drop k) = true then
    some (run.take k, (run.drop k).drop sourcesTag.length)
  else none

/-- Greedy `\w+` followed by literal `_SOURCES`: the regex engine tries the
longest `\w+` first, so the split is taken at the LARGEST admissible `k`.
Since `_SOURCES` consists of word characters, any occurrence lies inside the
maximal word-character run. -/
def lastTagSplit (run : List Char) : Option (List Char × List Char) :=
  ((List.range (run.length + 1)).reverse).findSome? (tagSplitAt run)

/-- One anchored attempt of `set\(\w+_SOURCES(.*?)\)` (DOTALL): on success,
returns the captured group and the input remaining after the whole match. -/
def matchSetSources (s : List Char) : Option (List Char × List Char) :=
  match dropLit "set(".data s with
  | none => none
  | some r1 =>
    let run := r1.takeWhile isWordChar
    match lastTagSplit run with
    | none => none
    | some (_, post) => splitAtCloseParen (post ++ r1.drop run.length)

/-- One anchored attempt of `src/[\w/]+\.cpp`: literal `src/`, then the
greedy class run (at least one character), then literal `.cpp`.  Because `.`
is not in the class `[\w/]`, backtracking the greedy run can never expose a
dot, so only the maximal run needs to be considered.  Returns the whole
match (this pattern has no group) and the remainder. -/
def matchSrcCpp (s : List Char) : Option (List Char × List Char) :=
  match dropLit "src/".data s with
  | none => none
  | some r1 =>
    let run := r1.takeWhile srcPathChar
    if run.isEmpty then none
    else
      match dropLit ".cpp".data (r1.drop run.length) with
      | none => none
      | some r2 => some ("src/".data ++ run ++ ".cpp".data, r2)

/-- One anchored attempt of `add_executable\(\w+\s+(src/[\w/]+\.cpp)`:
literal, greedy word run (≥ 1), greedy whitespace run (≥ 1), then the
captured source-path pattern.  Word characters, whitespace and `s` of
`src/` are pairwise exclusive here, so the greedy runs are forced and no
further backtracking can succeed. -/
def matchAddExecutable (s : List Char) : Option (List Char × List Char) :=
  match dropLit "add_executable(".data s with
  | none => none
  | some r1 =>
    let name := r1.takeWhile isWordChar
    if name.isEmpty then none
    else
      let r2 := r1.drop name.length
      let sp := r2.takeWhile isPySpace
      if sp.isEmpty then none
      else matchSrcCpp (r2.drop sp.length)

/-- One anchored attempt of `include_directories\((.*?)\)` (DOTALL):
literal, then lazy capture up to the first closing parenthesis. -/
def matchIncludeDirs (s : List Char) : Option (List Char × List Char) :=
  match dropLit "include_directories(".data s with
  | none => none
  | some r1 => splitAtCloseParen r1

/-- One anchored attempt of `\s*([^\s]+)`: optional whitespace, then a
captured maximal non-whitespace run (≥ 1 character). -/
def matchSpaceToken (s : List Char) : Option (List Char × List Char) :=
  let s1 := s.dropWhile isPySpace
  let tok := s1.takeWhile (fun c => !isPySpace c)
  if tok.isEmpty then none else some (tok, s1.drop tok.length)

/-- `re.findall` driver: scan left to right; at each position attempt the
anchored match; on success emit the captured text and continue after the
whole match (non-overlapping), on failure advance one character.  Every
pattern above matches at least one character, so fuel equal to the input
length suffices. -/
def scanAll (m : List Char → Option (List Char × List Char)) :
    Nat → List Char → List (List Char)
  | 0, _ => []
  | _ + 1, [] => []
  | fuel + 1, c :: cs =>
    match m (c :: cs) with
    | some (grp, rest) => grp :: scanAll m fuel rest
    | none => scanAll m fuel cs

/-- `re.findall(pattern, s)` for one of the anchored matchers above. -/
def pyFindall (m : List Char → Option (List Char × List Char)) (s : String) :
    List String :=
  (scanAll m s.data.length s.data).map String.mk

/-- Sequential concatenation of strings (the output document is written by
appending block after block). -/
def strConcat : List String → String
  | [] => ""
  | s :: rest => s ++ strConcat rest

/-- Substring occurrence test over character lists. -/
def listContains (pat : List Char) : List Char → Bool
  | [] => pat.isEmpty
  | c :: cs => pat.isPrefixOf (c :: cs) || listContains pat cs

/-- Python `sub in s` for strings: substring test. -/
def strContains (s sub : String) : Bool := listContains sub.data s.data

/-- Python `s.endswith(suf)`. -/
def strEndsWith (s suf : String) : Bool := suf.data.isSuffixOf s.data

/-- Python `s.strip()`: remove leading and trailing whitespace. -/
def pyStrip (s : String) : String :=
  String.mk (((s.data.dropWhile isPySpace).reverse.dropWhile isPySpace).reverse)

/-- Non-overlapping left-to-right replacement, Python `s.replace(pat, rep)`
for a non-empty `pat` (the script's only pattern is
`${PROJECT_SOURCE_DIR}`, which is non-empty). -/
def replaceAux (pat rep : List Char) : Nat → List Char → List Char
  | 0, s => s
  | _ + 1, [] => []
  | fuel + 1, c :: cs =>
    if pat.isPrefixOf (c :: cs) then
      rep ++ replaceAux pat rep fuel ((c :: cs).drop pat.length)
    else c :: replaceAux pat rep fuel cs

/-- Python `s.replace(pat, rep)`. -/
def pyReplace (s pat rep : String) : String :=
  String.mk (replaceAux pat.data rep.data s.data.length s.data)

/-- `os.path.join(a, b)` for POSIX paths, two arguments as the script
uses it. -/
def joinPath (a b : String) : String :=
  if b.data.head? = some '/' then b
  else if a = "" then b
  else if a.data.getLast? = some '/' then a ++ b
  else a ++ "/" ++ b

/-- `os.path.dirname(p)` for POSIX paths: the prefix up to the last slash,
with trailing slashes stripped unless the head is all slashes. -/
def pyDirname (p : String) : String :=
  let cs := p.data
  let i := cs.length - (cs.reverse.takeWhile (fun c => c ≠ '/')).length
  let head := cs.take i
  if head.isEmpty then ""
  else if head.all (fun c => c == '/') then String.mk head
  else String.mk ((head.reverse.dropWhile (fun c => c == '/')).reverse)

/-- Abstract filesystem / process environment observed by the script:
`os.path.abspath` (depends on the working directory), `os.path.exists`,
`open(path).read()` (`Except.error msg` models a raised exception with
message `str(e)`), and `os.walk` (the `(root, files)` components of the
yielded triples, in traversal order; the `dirs` component is unused by the
script). -/
structure FS where
  abspath : String → String
  pathExists : String → Bool
  readFile : String → Except String String
  walk : String → List (String × List String)

/-- `sys.argv[1] if len(sys.argv) > 1 else 'CMakeLists.txt'` — `argv` is the
full argument vector including the script name at position 0. -/
def cmakeFileOf (argv : List String) : String :=
  match argv with
  | _ :: arg :: _ => arg
  | _ => "CMakeLists.txt"

/-- The source-path part of `extract_paths_from_cmake` (script lines 12-22),
applied to the text of the configuration file:
`re.findall(r'set\(\w+_SOURCES(.*?)\)', content, re.DOTALL)`, then for each
block `paths.extend(re.findall(r'src/[\w/]+\.cpp', block))`, then
`paths.extend(re.findall(r'add_executable\(\w+\s+(src/[\w/]+\.cpp)', content))`. -/
def extract_source_paths (content : String) : List String :=
  let source_sets := pyFindall matchSetSources content
  let paths := source_sets.foldl (fun acc ss => acc ++ pyFindall matchSrcCpp ss) []
  let main_files := pyFindall matchAddExecutable content
  paths ++ main_files

/-- The include-directory part of `extract_paths_from_cmake` (script lines
24-33): `re.findall(r'include_directories\((.*?)\)', content, re.DOTALL)`,
then per block replace the literal placeholder with the project directory
and `include_paths.extend(re.findall(r'\s*([^\s]+)', block))`. -/
def extract_include_paths (content project_dir : String) : List String :=
  let include_dirs := pyFindall matchIncludeDirs content
  include_dirs.foldl
    (fun acc dir_block =>
      acc ++ pyFindall matchSpaceToken
        (pyReplace dir_block "$\x7bPROJECT_SOURCE_DIR\x7d" project_dir)) []

/-- The pure content-level body of `extract_paths_from_cmake`. -/
def extract_paths_from_content (content project_dir : String) :
    List String × List String :=
  (extract_source_paths content, extract_include_paths content project_dir)

/-- `extract_paths_from_cmake` (script lines 5-35).  The `open(cmake_file)`
at line 7 is NOT guarded by `try`: a read failure raises and propagates to
the caller, modelled by `Except.error`. -/
def extract_paths_from_cmake (fs : FS) (cmake_file : String) :
    Except String (List String × List String) :=
  match fs.readFile cmake_file with
  | .error e => .error e
  | .ok content =>
    .ok (extract_paths_from_content content (pyDirname (fs.abspath cmake_file)))

/-- Inner loops of `find_header_files` (script lines 50-53): walk one
directory, appending `os.path.join(root, file)` for every file ending in
`.h` or `.hpp`, in walk order. -/
def walkAppend (fs : FS) (include_dir : String) (acc : List String) :
    List String :=
  (fs.walk include_dir).foldl
    (fun acc rf =>
      rf.2.foldl
        (fun acc file =>
          if strEndsWith file ".h" || strEndsWith file ".hpp" then
            acc ++ [joinPath rf.1 file]
          else acc)
        acc)
    acc

/-- `find_header_files` (script lines 37-55): skip a candidate containing
`${` (before stripping), strip it, skip it when it does not exist, else
collect its headers by walking. -/
def find_header_files (fs : FS) (include_dirs : List String) : List String :=
  include_dirs.foldl
    (fun acc include_dir =>
      if strContains include_dir "$\x7b" then acc
      else
        let d := pyStrip include_dir
        if !fs.pathExists d then acc
        else walkAppend fs d acc)
    []

/-- The `try` body of `read_file_content` (script lines 66-76): read the
(already resolved) path; on success wrap the content in the banners — note
the end banner at line 73 is a PLAIN string, not an f-string, so it contains
the literal text `{file_path}`; on an exception return the inline error
comment. -/
def formatRead (fs : FS) (file_path : String) : String :=
  match fs.readFile file_path with
  | .ok content =>
    "//===== FILE: " ++ file_path ++ " =====//\n\n" ++ content ++
      "\n\n//===== END FILE: \x7bfile_path\x7d =====//\n\n"
  | .error e => "// Error reading file " ++ file_path ++ ": " ++ e ++ "\n\n"

/-- `read_file_content` (script lines 57-76): if the path does not exist,
retry relative to the project directory; if that also does not exist, return
the not-found placeholder; otherwise read and format the resolved path. -/
def read_file_content (fs : FS) (file_path project_dir : String) : String :=
  if fs.pathExists file_path then formatRead fs file_path
  else
    let relative_path := joinPath project_dir file_path
    if fs.pathExists relative_path then formatRead fs relative_path
    else "// File not found: " ++ file_path ++ "\n\n"

/-- The output-writing loop of `main` (script lines 103-106): append each
file's formatted block to the document written so far. -/
def mainWriteLoop (fs : FS) (project_dir : String) :
    List String → String → String
  | [], out => out
  | p :: ps, out =>
    mainWriteLoop fs project_dir ps (out ++ read_file_content fs p project_dir)

/-- Body of `main` after the configuration file has been read successfully
(script lines 85-106): the extracted include directories are bound but never
used — `find_header_files` is called on the hardcoded
`[os.path.join(project_dir, 'include')]` (line 91); the document starts with
the two preamble lines and then one block per path of
`source_paths + header_files`. -/
def mainFromContent (fs : FS) (cmake_file content : String) : String :=
  let project_dir := pyDirname (fs.abspath cmake_file)
  let source_paths := (extract_paths_from_content content project_dir).1
  let header_files := find_header_files fs [joinPath project_dir "include"]
  let all_files := source_paths ++ header_files
  mainWriteLoop fs project_dir all_files
    ("// Project Code from " ++ cmake_file ++ "\n" ++
      "// Total files: " ++ toString all_files.length ++ "\n\n")

/-- `main` (script lines 78-108), returning the text written to
`project_code.txt`.  `main` calls `extract_paths_from_cmake`, whose
unguarded `open` can raise: that exception propagates out of `main`
(`Except.error`), the process exits with a traceback and no output file is
created (the output file is only opened at line 99, after extraction). -/
def mainRun (fs : FS) (argv : List String) : Except String String :=
  let cmake_file := cmakeFileOf argv
  match fs.readFile cmake_file with
  | .error e => .error e
  | .ok content => .ok (mainFromContent fs cmake_file content)

/-- Success test on a run result: `Except.ok` means the process reached the
final print and exited with status 0. -/
def exceptIsOk : Except String String → Bool
  | .ok _ => true
  | .error _ => false

/-! ## Helper lemmas -/

/-- A left fold whose step appends `f x` to the accumulator produces the
accumulator followed by the concatenation of the `f`-images in order. -/
theorem foldl_extend {α β : Type} (step : List β → α → List β) (f : α → List β)
    (h : ∀ acc x, step acc x = acc ++ f x) (l : List α) (acc : List β) :
    l.foldl step acc = acc ++ (l.map f).flatten := by
  induction l generalizing acc with
  | nil => simp
  | cons x xs ih => simp [h, ih, List.append_assoc]

/-- A left fold that conditionally appends a singleton produces the
accumulator followed by the filtered-and-mapped elements in order. -/
theorem foldl_filter_map {α β : Type} (P : α → Bool) (g : α → β)
    (l : List α) (acc : List β) :
    l.foldl (fun a x => if P x then a ++ [g x] else a) acc =
      acc ++ (l.filter P).map g := by
  induction l generalizing acc with
  | nil => simp
  | cons x xs ih =>
    cases hx : P x <;> simp [hx, ih, List.filter_cons, List.append_assoc]

/-- The write loop of `main` appends exactly one formatted block per path,
in list order, to the document written so far. -/
theorem mainWriteLoop_eq (fs : FS) (pd : String) (l : List String)
    (out : String) :
    mainWriteLoop fs pd l out =
      out ++ strConcat (l.map (fun p => read_file_content fs p pd)) := by
  induction l generalizing out with
  | nil => simp [mainWriteLoop, strConcat]
  | cons p ps ih => simp [mainWriteLoop, strConcat, ih, String.append_assoc]

/-- Walking one directory appends exactly the `.h`/`.hpp` files of the walk,
joined to their roots, in walk order. -/
theorem walkAppend_eq (fs : FS) (d : String) (acc : List String) :
    walkAppend fs d acc =
      acc ++ ((fs.walk d).map (fun rf =>
        (rf.2.filter (fun f => strEndsWith f ".h" || strEndsWith f ".hpp")).map
          (fun f => joinPath rf.1 f))).flatten := by
  unfold walkAppend
  refine foldl_extend _
    (fun (rf : String × List String) =>
      (rf.2.filter (fun f => strEndsWith f ".h" || strEndsWith f ".hpp")).map
        (fun f => joinPath rf.1 f))
    (fun acc rf => ?_) _ acc
  exact foldl_filter_map _ _ rf.2 acc

/-! ## Concrete environments used to instantiate the theorems -/

/-- A small concrete filesystem: the configuration file declares one source
set and one executable, `src/a.cpp` exists as given, `src/b.cpp` exists only
under the project directory, `err.cpp` exists but fails to read, and the
project `include` directory holds one walk entry. -/
def demoFS : FS where
  abspath := fun p => "/proj/" ++ p
  pathExists := fun p =>
    p == "src/a.cpp" || p == "/proj/include" || p == "/proj/src/b.cpp" ||
      p == "err.cpp"
  readFile := fun p =>
    if p == "src/a.cpp" then .ok "int a;\n"
    else if p == "/proj/src/b.cpp" then .ok "int b;\n"
    else if p == "err.cpp" then .error "boom"
    else if p == "CMakeLists.txt" then
      .ok "set(APP_SOURCES src/a.cpp src/b.cpp)\nadd_executable(app src/main.cpp)\n"
    else .error "No such file or directory"
  walk := fun d =>
    if d == "/proj/include" then
      [("/proj/include", ["x.h", "notes.txt", "y.hpp"])]
    else []

/-- A filesystem on which every read raises (in particular the
configuration file itself cannot be opened). -/
def fsNoConfig : FS where
  abspath := fun p => "/proj/" ++ p
  pathExists := fun _ => false
  readFile := fun _ => .error "No such file or directory"
  walk := fun _ => []

/-! ## Claims -/

/-- Claim C2: for a configuration text containing exactly one declaration
`set(FOO_SOURCES src/a.cpp src/b.cpp)`, the source-path extraction returns
exactly `["src/a.cpp", "src/b.cpp"]` in that order. -/
theorem c2_single_set_extraction :
    extract_source_paths "set(FOO_SOURCES src/a.cpp src/b.cpp)" =
      ["src/a.cpp", "src/b.cpp"] := by
  decide

/-- Claim C3, counterexample: the extraction result is NOT always in
declaration order across the two kinds of declaration.  In a configuration
whose `add_executable` declaration precedes its `set(..._SOURCES ...)`
declaration, the code still places the `set` matches first, because the two
`re.findall` passes are concatenated pass-by-pass, not by text position. -/
theorem c3_declaration_order_counterexample :
    extract_source_paths
        "add_executable(app src/main.cpp)\nset(A_SOURCES src/a.cpp src/a.cpp)" =
      ["src/a.cpp", "src/a.cpp", "src/main.cpp"] ∧
    extract_source_paths
        "add_executable(app src/main.cpp)\nset(A_SOURCES src/a.cpp src/a.cpp)" ≠
      ["src/main.cpp", "src/a.cpp", "src/a.cpp"] := by
  exact ⟨by decide, by decide⟩

/-- Claim C3 as amended: for every configuration text, extraction yields all
matches found inside `set(..._SOURCES ...)` blocks (blocks in declaration
order, match order within each block) followed by all
`add_executable(...)` matches (in declaration order), duplicates kept. -/
theorem c3_set_matches_then_executable_matches (content : String) :
    extract_source_paths content =
      ((pyFindall matchSetSources content).map
        (fun ss => pyFindall matchSrcCpp ss)).flatten ++
      pyFindall matchAddExecutable content := by
  have h := foldl_extend (fun acc ss => acc ++ pyFindall matchSrcCpp ss)
    (fun ss => pyFindall matchSrcCpp ss) (fun _ _ => rfl)
    (pyFindall matchSetSources content) []
  simp [extract_source_paths, h]

/-- Claim C6: header discovery collects, for each candidate directory with
no unresolved `${` placeholder (checked before stripping) that exists on
disk (checked after stripping), every walked file ending in `.h` or `.hpp`,
joined to its walk root, in candidate order then walk order; candidates with
a placeholder or that do not exist contribute nothing (they are skipped with
no output at all — the console is silent about them). -/
theorem c6_header_discovery (fs : FS) (include_dirs : List String) :
    find_header_files fs include_dirs =
      (include_dirs.map (fun d =>
        if strContains d "$\x7b" then []
        else if fs.pathExists (pyStrip d) then
          ((fs.walk (pyStrip d)).map (fun rf =>
            (rf.2.filter
              (fun f => strEndsWith f ".h" || strEndsWith f ".hpp")).map
              (fun f => joinPath rf.1 f))).flatten
        else [])).flatten := by
  unfold find_header_files
  refine foldl_extend _ _ (fun acc d => ?_) include_dirs []
  cases hc : strContains d "$\x7b" with
  | true => simp [hc]
  | false =>
    cases he : fs.pathExists (pyStrip d) with
    | true => simp [hc, he, walkAppend_eq]
    | false => simp [hc, he]

/-- Claim C1: when the configuration file is readable, the produced document
is exactly the two preamble lines followed by one formatted block per path
of the combined candidate list — config-derived sources first, then
discovered headers — in exactly that order, with no deduplication and no
reordering (the document is literally the concatenation of the per-path
blocks in list order). -/
theorem c1_one_block_per_candidate (fs : FS) (argv : List String)
    (content : String)
    (h : fs.readFile (cmakeFileOf argv) = .ok content) :
    mainRun fs argv = .ok
      ("// Project Code from " ++ cmakeFileOf argv ++ "\n" ++
        "// Total files: " ++
        toString (extract_source_paths content ++
          find_header_files fs
            [joinPath (pyDirname (fs.abspath (cmakeFileOf argv)))
              "include"]).length ++ "\n\n" ++
        strConcat ((extract_source_paths content ++
          find_header_files fs
            [joinPath (pyDirname (fs.abspath (cmakeFileOf argv)))
              "include"]).map
          (fun p =>
            read_file_content fs p
              (pyDirname (fs.abspath (cmakeFileOf argv)))))) := by
  simp [mainRun, h, mainFromContent, extract_paths_from_content,
    mainWriteLoop_eq, String.append_assoc]

set_option maxRecDepth 16384 in
/-- Witness for C1 at a concrete filesystem: the five candidates (three
config-derived sources, two discovered headers) each yield exactly one
block, in order. -/
theorem c1_one_block_per_candidate_witness :
    mainRun demoFS ["prog"] = .ok
      ("// Project Code from CMakeLists.txt\n// Total files: 5\n\n//===== FILE: src/a.cpp =====//\n\nint a;\n\n\n//===== END FILE: \x7bfile_path\x7d =====//\n\n//===== FILE: /proj/src/b.cpp =====//\n\nint b;\n\n\n//===== END FILE: \x7bfile_path\x7d =====//\n\n// File not found: src/main.cpp\n\n// File not found: /proj/include/x.h\n\n// File not found: /proj/include/y.hpp\n\n") :=
  (c1_one_block_per_candidate demoFS ["prog"]
    "set(APP_SOURCES src/a.cpp src/b.cpp)\nadd_executable(app src/main.cpp)\n"
    rfl).trans (congrArg Except.ok (by decide))

/-- Claim C4: per-file resolution tries the path as given, then relative to
the configuration file's directory; when neither exists the emitted block is
the inline `// File not found: <path>` placeholder, and the write loop
continues with the remaining paths. -/
theorem c4_missing_file_placeholder (fs : FS)
    (project_dir acc file_path : String) (ps : List String)
    (h1 : fs.pathExists file_path = false)
    (h2 : fs.pathExists (joinPath project_dir file_path) = false) :
    read_file_content fs file_path project_dir =
      "// File not found: " ++ file_path ++ "\n\n" ∧
    mainWriteLoop fs project_dir (file_path :: ps) acc =
      mainWriteLoop fs project_dir ps
        (acc ++ ("// File not found: " ++ file_path ++ "\n\n")) := by
  have hr : read_file_content fs file_path project_dir =
      "// File not found: " ++ file_path ++ "\n\n" := by
    simp [read_file_content, h1, h2]
  exact ⟨hr, by simp [mainWriteLoop, hr]⟩

/-- Witness for C4: `src/main.cpp` exists neither as given nor under
`/proj`, so its block is the placeholder and the loop moves on. -/
theorem c4_missing_file_placeholder_witness :
    read_file_content demoFS "src/main.cpp" "/proj" =
      "// File not found: " ++ "src/main.cpp" ++ "\n\n" ∧
    mainWriteLoop demoFS "/proj" ("src/main.cpp" :: ["src/a.cpp"]) "" =
      mainWriteLoop demoFS "/proj" ["src/a.cpp"]
        ("" ++ ("// File not found: " ++ "src/main.cpp" ++ "\n\n")) :=
  c4_missing_file_placeholder demoFS "/proj" "" "src/main.cpp" ["src/a.cpp"]
    (by decide) (by decide)

/-- Claim C5, counterexample: the run does NOT always complete with success
status for every configuration-file argument and filesystem state.  The
`open` of the configuration file inside `extract_paths_from_cmake` (script
line 7) is not guarded by any `try`: when that read raises, the exception
propagates out of `main`, the process exits with a traceback (non-zero
status) and no output file is produced, because the output file is only
opened after extraction (line 99). -/
theorem c5_always_succeeds_counterexample :
    mainRun fsNoConfig ["script.py"] = .error "No such file or directory" ∧
    exceptIsOk (mainRun fsNoConfig ["script.py"]) = false :=
  ⟨rfl, rfl⟩

/-- Claim C5 as amended: provided the configuration file itself is readable,
the run always completes successfully and produces the output document, and
a read error on any individual candidate file is absorbed into an inline
`// Error reading file <path>: <message>` comment. -/
theorem c5_errors_inline_when_config_readable (fs : FS) (argv : List String)
    (content : String) (h : fs.readFile (cmakeFileOf argv) = .ok content) :
    exceptIsOk (mainRun fs argv) = true ∧
    (∀ file_path project_dir e, fs.pathExists file_path = true →
      fs.readFile file_path = .error e →
      read_file_content fs file_path project_dir =
        "// Error reading file " ++ file_path ++ ": " ++ e ++ "\n\n") := by
  constructor
  · simp [mainRun, h, exceptIsOk]
  · intro file_path project_dir e hp hr
    simp [read_file_content, formatRead, hp, hr]

/-- Witness for the amended C5: with a readable configuration file the run
succeeds. -/
theorem c5_errors_inline_witness :
    exceptIsOk (mainRun demoFS ["prog"]) = true :=
  (c5_errors_inline_when_config_readable demoFS ["prog"]
    "set(APP_SOURCES src/a.cpp src/b.cpp)\nadd_executable(app src/main.cpp)\n"
    rfl).1

/-- Claim C7: the include directories extracted from
`include_directories(...)` declarations are never passed to the header-scan
call — `main` hardcodes `[os.path.join(project_dir, 'include')]` (script
line 91).  Consequently the whole run after the config read — in particular
the discovered header list — is unchanged by any modification of the
configuration text that leaves source extraction unchanged, e.g. by
configurations differing only in their `include_directories(...)`
declarations. -/
theorem c7_include_extraction_never_scanned (fs : FS)
    (cmake_file ca cb : String)
    (h : extract_source_paths ca = extract_source_paths cb) :
    mainFromContent fs cmake_file ca = mainFromContent fs cmake_file cb := by
  simp [mainFromContent, extract_paths_from_content, h]

/-- Witness for C7: two configurations declaring different include
directories produce identical runs. -/
theorem c7_include_extraction_never_scanned_witness :
    mainFromContent demoFS "CMakeLists.txt" "include_directories(/a)" =
      mainFromContent demoFS "CMakeLists.txt" "include_directories(/b)" :=
  c7_include_extraction_never_scanned demoFS "CMakeLists.txt"
    "include_directories(/a)" "include_directories(/b)" (by decide)

/-- Claim C8: for a successfully read file, the start banner embeds the
resolved path, while the end banner is the un-substituted literal template
text `{file_path}` (script line 73 is a plain string, not an f-string). -/
theorem c8_end_banner_unsubstituted (fs : FS)
    (file_path project_dir content : String)
    (hex : fs.pathExists file_path = true)
    (hr : fs.readFile file_path = .ok content) :
    read_file_content fs file_path project_dir =
      "//===== FILE: " ++ file_path ++ " =====//\n\n" ++ content ++
        "\n\n//===== END FILE: \x7bfile_path\x7d =====//\n\n" := by
  simp [read_file_content, formatRead, hex, hr]

/-- Witness for C8 at a concrete file: the start banner names `src/a.cpp`,
the end banner carries the literal `{file_path}`. -/
theorem c8_end_banner_unsubstituted_witness :
    read_file_content demoFS "src/a.cpp" "/proj" =
      "//===== FILE: " ++ "src/a.cpp" ++ " =====//\n\n" ++ "int a;\n" ++
        "\n\n//===== END FILE: \x7bfile_path\x7d =====//\n\n" :=
  c8_end_banner_unsubstituted demoFS "src/a.cpp" "/proj" "int a;\n"
    (by decide) rfl

/-- Claim C9: the run is a pure function of the observed environment — two
runs over environments that agree on path resolution, existence tests, file
contents and directory walks (an unchanged filesystem) produce byte-identical
output documents. -/
theorem c9_run_deterministic (fsa fsb : FS) (argv : List String)
    (h1 : fsa.abspath = fsb.abspath) (h2 : fsa.pathExists = fsb.pathExists)
    (h3 : fsa.readFile = fsb.readFile) (h4 : fsa.walk = fsb.walk) :
    mainRun fsa argv = mainRun fsb argv := by
  have hfs : fsa = fsb := by
    cases fsa with
    | mk a e r w =>
      cases fsb with
      | mk a2 e2 r2 w2 =>
        have ha : a = a2 := h1
        have he : e = e2 := h2
        have hr : r = r2 := h3
        have hw : w = w2 := h4
        rw [ha, he, hr, hw]
  rw [hfs]

/-- Witness for C9: two runs over the same concrete filesystem coincide. -/
theorem c9_run_deterministic_witness :
    mainRun demoFS ["prog"] = mainRun demoFS ["prog"] :=
  c9_run_deterministic demoFS demoFS ["prog"] rfl rfl rfl rfl

/-- Every branch of the `try` body of `read_file_content` yields a string
ending in two newlines. -/
theorem formatRead_terminated (fs : FS) (file_path : String) :
    ∃ t, formatRead fs file_path = t ++ "\n\n" := by
  have hL : "\n\n//===== END FILE: \x7bfile_path\x7d =====//\n\n" =
      "\n\n//===== END FILE: \x7bfile_path\x7d =====//" ++ "\n\n" := by decide
  cases h : fs.readFile file_path with
  | ok content =>
    refine ⟨"//===== FILE: " ++ file_path ++ " =====//\n\n" ++ content ++
      "\n\n//===== END FILE: \x7bfile_path\x7d =====//", ?_⟩
    simp only [formatRead, h]
    rw [hL, ← String.append_assoc]
  | error e =>
    exact ⟨"// Error reading file " ++ file_path ++ ": " ++ e,
      by simp only [formatRead, h]⟩

/-- Claim C10: `read_file_content` is total at its interface — it is a
function into `String` (every Python exception in its body is caught by the
`try`, and both `os.path.exists` branches return), and its result always
ends in two newline characters, so the document stays well-formed block by
block whatever the filesystem does. -/
theorem c10_read_file_content_total_blocks (fs : FS)
    (file_path project_dir : String) :
    ∃ t, read_file_content fs file_path project_dir = t ++ "\n\n" := by
  unfold read_file_content
  cases h1 : fs.pathExists file_path with
  | true =>
    simp only [h1, if_true]
    exact formatRead_terminated fs file_path
  | false =>
    simp only [h1, Bool.false_eq_true, if_false]
    cases h2 : fs.pathExists (joinPath project_dir file_path) with
    | true =>
      simp only [h2, if_true]
      exact formatRead_terminated fs (joinPath project_dir file_path)
    | false =>
      simp only [h2, Bool.false_eq_true, if_false]
      exact ⟨"// File not found: " ++ file_path, rfl⟩
